import Mathlib

/-!
Shallow embedding of the weavegitops-ssp-addon repository (src/index.ts).

The source defines one class, WeaveGitOpsAddOn, with two lifecycle hooks
(deploy and postDeploy), a credential resolver getSshKeyFromSecret backed by
the AWS Secrets Manager, and a base64 helper base64EncodeContents.  External
collaborators (the secret store, the JSON.parse builtin, the cluster's
addHelmChart call) are modelled as explicit inputs; machine behaviour of the
callback-based SDK call is modelled by its documented event ordering: the
callback runs only after the current synchronous execution has finished.
-/

/-- Git bootstrap repository descriptor (interface BootstrapRepository in the
source).  Optional fields are Option String; none models an absent
(undefined) field. -/
structure BootstrapRepository where
  URL : String
  branch : String
  path : String
  secretName : Option String
  privateKey : Option String
  publicKey : Option String
  knownHosts : Option String
  deriving DecidableEq, Repr

/-- JavaScript truthiness of a possibly-absent string: undefined and the empty
string are falsy, every other string is truthy. -/
def jsTruthy : Option String → Bool
  | none => false
  | some s => !s.isEmpty

/-- Consume characters of a JSON string up to its closing double quote,
returning the string read and the remaining input.  Model of string reading
inside the JSON.parse builtin, restricted to strings without escape
sequences (the shape of the secret-bundle payloads). -/
def takeJsonString : List Char → Option (String × List Char)
  | [] => none
  | c :: rest =>
    if c = '"' then some ("", rest)
    else
      match takeJsonString rest with
      | none => none
      | some (s, r) => some (⟨c :: s.data⟩, r)

/-- Parse the member list of a flat JSON object after its opening brace, with
fuel bounding the recursion depth.  Each member is a string key, a colon and
a string value; members are separated by commas and the object ends with a
closing brace at end of input. -/
def parseJsonMembers : Nat → List Char → Option (List (String × String))
  | 0, _ => none
  | fuel + 1, '"' :: cs =>
    match takeJsonString cs with
    | none => none
    | some (k, cs1) =>
      match cs1 with
      | ':' :: '"' :: cs2 =>
        match takeJsonString cs2 with
        | none => none
        | some (v, cs3) =>
          match cs3 with
          | ',' :: cs4 =>
            match parseJsonMembers fuel cs4 with
            | none => none
            | some ms => some ((k, v) :: ms)
          | ['}'] => some [(k, v)]
          | _ => none
      | _ => none
  | _, _ => none

/-- Model of the JavaScript builtin JSON.parse, restricted to the flat
string-valued objects of the secret-bundle schema.  none models a thrown
SyntaxError; in particular parseFlatJson applied to the empty string is
none, as JSON.parse of an empty string throws. -/
def parseFlatJson (s : String) : Option (List (String × String)) :=
  match s.data with
  | ['{', '}'] => some []
  | '{' :: cs => parseJsonMembers (cs.length + 1) cs
  | _ => none

/-- JavaScript property read obj.k on a parsed JSON object: a later duplicate
key overwrites an earlier one, an absent key yields undefined (none). -/
def jsLookup (obj : List (String × String)) (k : String) : Option String :=
  (obj.reverse.find? (fun p => p.1 == k)).map (fun p => p.2)

/-- Rendering our model uses for the SyntaxError thrown by JSON.parse. -/
def jsonSyntaxErrorMsg : String := "SyntaxError: Unexpected end of JSON input"

/-- Lines 73-77 of the source, the tail of getSshKeyFromSecret: parse the
fetched text and copy the three credential fields onto the repository.
Returns the repository after these statements together with the exception
they threw, if any (the method itself returns void, so the exception slot is
the only other outcome). -/
def applySecretText (repo : BootstrapRepository) (secret : String) :
    BootstrapRepository × Option String :=
  match parseFlatJson secret with
  | none => (repo, some jsonSyntaxErrorMsg)
  | some secretObject =>
    ({ repo with
        privateKey := jsLookup secretObject "private_key"
        publicKey := jsLookup secretObject "public_key"
        knownHosts := jsLookup secretObject "known_hosts" }, none)

/-- Response of the Secrets Manager getSecretValue call, an external
collaborator.  stringPayload models a response whose SecretString property is
present (none inside models a present-but-undefined value, handled by the
source's nullish coalescing); binaryPayload models the SecretBinary branch,
carrying the text its toString rendering produces. -/
inductive StoreResponse where
  | failure (code : String)
  | stringPayload (s : Option String)
  | binaryPayload (rendered : String)
  deriving DecidableEq

/-- The five error codes the callback recognises and rethrows. -/
def fatalStoreCodes : List String :=
  ["DecryptionFailureException", "InternalServiceErrorException",
   "InvalidParameterException", "InvalidRequestException",
   "ResourceNotFoundException"]

/-- The getSecretValue callback of lines 52-72: returns the value it leaves in
the local variable secret and the error it throws, if any.  An error with an
unrecognised code falls through every branch of the if/else chain, throwing
nothing and leaving secret at its initial empty value. -/
def getSecretValueCallback : StoreResponse → String × Option String
  | .failure code => ("", if code ∈ fatalStoreCodes then some code else none)
  | .stringPayload s => (s.getD "", none)
  | .binaryPayload rendered => (rendered, none)

/-- Outcome of one run of getSshKeyFromSecret: the repository after the
synchronous body, the exception the synchronous body threw (raised), the
exception the deferred callback throws on a later event-loop turn
(deferredRaise, an uncaught asynchronous exception raised after the method
and its caller have already returned), and the store requests issued. -/
structure ResolveRun where
  repoAfter : BootstrapRepository
  raised : Option String
  deferredRaise : Option String
  storeCalls : List String
  deriving DecidableEq, Repr

/-- getSshKeyFromSecret (lines 49-77).  client.getSecretValue is an
asynchronous callback-based SDK call: it only registers the callback and
returns at once, and the callback runs on a later event-loop turn, after the
current synchronous execution (this method and its caller) has finished.
Hence at the JSON.parse on line 73 the local variable secret still holds its
initial value, the empty string, and an error thrown inside the callback is
raised outside the method. -/
def getSshKeyFromSecretRun (repo : BootstrapRepository) (secretName : String)
    (resp : StoreResponse) : ResolveRun :=
  let cb := getSecretValueCallback resp
  let parsed := applySecretText repo ""
  { repoAfter := parsed.1, raised := parsed.2,
    deferredRaise := cb.2, storeCalls := [secretName] }

/-- One application entry of the wego-app values payload. -/
structure ApplicationEntry where
  applicationName : String
  gitRepository : String
  privateKey : String
  knownHosts : String
  path : String
  branch : String
  deriving DecidableEq, Repr

/-- The structured values of a helm chart request. -/
structure HelmChartValues where
  applications : List ApplicationEntry
  deriving DecidableEq, Repr

/-- One addHelmChart request: identifier and chart properties.  The source's
namespace property is spelled nspace here because namespace is a Lean
keyword. -/
structure HelmChartRequest where
  id : String
  chart : String
  repository : String
  version : String
  nspace : String
  values : Option HelmChartValues
  deriving DecidableEq, Repr

/-- UTF-16 code units of a character, as stored in a JavaScript string. -/
def utf16Units (c : Char) : List Nat :=
  if c.toNat < 65536 then [c.toNat]
  else [55296 + (c.toNat - 65536) / 1024, 56320 + (c.toNat - 65536) % 1024]

/-- The UTF-16 code units of a JavaScript string. -/
def jsCodeUnits (s : String) : List Nat :=
  (s.data.map utf16Units).flatten

/-- Buffer.from(s, "binary") (the latin1 decoder): keeps the low eight bits of
every code unit. -/
def bufferFromBinary (units : List Nat) : List Nat := units.map (· % 256)

/-- The base64 alphabet as ASCII codes. -/
def b64Char (n : Nat) : Nat :=
  if n < 26 then 65 + n
  else if n < 52 then 97 + (n - 26)
  else if n < 62 then 48 + (n - 52)
  else if n = 62 then 43
  else 47

/-- Inverse of the base64 alphabet on its range. -/
def b64Index (c : Nat) : Nat :=
  if 65 ≤ c ∧ c ≤ 90 then c - 65
  else if 97 ≤ c ∧ c ≤ 122 then 26 + (c - 97)
  else if 48 ≤ c ∧ c ≤ 57 then 52 + (c - 48)
  else if c = 43 then 62
  else 63

/-- Buffer.toString("base64") on a byte list: the ASCII codes of the base64
rendering, with 61 the code of the padding character. -/
def b64EncodeBytes : List Nat → List Nat
  | [] => []
  | [b1] => [b64Char (b1 / 4), b64Char (b1 % 4 * 16), 61, 61]
  | [b1, b2] =>
    [b64Char (b1 / 4), b64Char (b1 % 4 * 16 + b2 / 16), b64Char (b2 % 16 * 4), 61]
  | b1 :: b2 :: b3 :: rest =>
    b64Char (b1 / 4) :: b64Char (b1 % 4 * 16 + b2 / 16) ::
      b64Char (b2 % 16 * 4 + b3 / 64) :: b64Char (b3 % 64) :: b64EncodeBytes rest

/-- Standard base64 decoding back to bytes; none on malformed input. -/
def b64DecodeBytes : List Nat → Option (List Nat)
  | [] => some []
  | c1 :: c2 :: c3 :: c4 :: rest =>
    if c3 = 61 then
      if c4 = 61 ∧ rest = [] then
        some [b64Index c1 * 4 + b64Index c2 / 16]
      else none
    else if c4 = 61 then
      if rest = [] then
        some [b64Index c1 * 4 + b64Index c2 / 16,
              b64Index c2 % 16 * 16 + b64Index c3 / 4]
      else none
    else
      match b64DecodeBytes rest with
      | none => none
      | some tail =>
        some ((b64Index c1 * 4 + b64Index c2 / 16) ::
              (b64Index c2 % 16 * 16 + b64Index c3 / 4) ::
              (b64Index c3 % 4 * 64 + b64Index c4) :: tail)
  | _ => none

/-- base64EncodeContents (lines 79-81) at the level of UTF-16 code units:
latin1-truncate the units to bytes, then base64-encode. -/
def base64EncodeUnits (units : List Nat) : List Nat :=
  b64EncodeBytes (bufferFromBinary units)

/-- base64EncodeContents: Buffer.from(contents, "binary").toString("base64"). -/
def base64EncodeContents (contents : String) : String :=
  ⟨(base64EncodeUnits (jsCodeUnits contents)).map Char.ofNat⟩

/-- A team, as passed to postDeploy by the host framework; its contents are
never read by the source. -/
structure Team where
  name : String

/-- The WeaveGitOpsAddOn instance state: the readonly namespace field
(spelled nspace, namespace being a Lean keyword) and the repository. -/
structure WeaveGitOpsAddOn where
  nspace : String
  bootstrapRepository : BootstrapRepository
  deriving DecidableEq, Repr

/-- The class constructor: namespace defaults to wego-system when absent. -/
def mkWeaveGitOpsAddOn (bootstrapRepository : BootstrapRepository)
    (nspace : Option String) : WeaveGitOpsAddOn :=
  { nspace := nspace.getD "wego-system",
    bootstrapRepository := bootstrapRepository }

/-- The cluster handle, of which the source reads only the cluster name. -/
structure ClusterInfo where
  clusterName : String

/-- Behaviour of the external collaborators during one step: the secret
store's response and the error thrown by the addHelmChart call, if any. -/
structure Env where
  storeResponse : StoreResponse
  installError : Option String

/-- The console.error rendering of deploy's catch block. -/
def coreErrMsg (e : String) : String :=
  "Unable to complete Weave GitOps AddOn Core deployment - aborting with error "
    ++ e

/-- The console.error rendering of postDeploy's catch block. -/
def bootErrMsg (e : String) : String :=
  "Unable to complete Weave GitOps AddOn Bootstrapping - aborting with error "
    ++ e

/-- The string thrown by postDeploy's credential validation. -/
def missingDetailsMsg : String :=
  "Required details for bootstrap repository access are missing, aborting"

/-- The single request deploy submits. -/
def coreChartRequest (nspace : String) : HelmChartRequest :=
  { id := "weave-gitops-core", chart := "wego-core",
    repository := "https://murillodigital.github.io/wego-helm",
    version := "0.0.5", nspace := nspace, values := none }

/-- Observable outcome of a try block: requests submitted, repository state,
deferred (asynchronous, uncaught) exception, store requests issued, and the
exception that reached the try/catch boundary, if any. -/
structure StepTry where
  submitted : List HelmChartRequest
  repoAfter : BootstrapRepository
  deferredRaise : Option String
  storeCalls : List String
  thrown : Option String
  deriving DecidableEq, Repr

/-- The try block of deploy (lines 84-90): one addHelmChart call with the
core chart request. -/
def deployTry (a : WeaveGitOpsAddOn) (_clusterInfo : ClusterInfo) (env : Env) :
    StepTry :=
  { submitted := [coreChartRequest a.nspace],
    repoAfter := a.bootstrapRepository,
    deferredRaise := none, storeCalls := [], thrown := env.installError }

/-- Observable outcome of a whole step: requests, repository state, logged
messages, the exception propagated to the caller (none means the method
returned normally), the deferred exception and the store requests. -/
structure StepRun where
  submitted : List HelmChartRequest
  repoAfter : BootstrapRepository
  log : List String
  raised : Option String
  deferredRaise : Option String
  storeCalls : List String
  deriving DecidableEq, Repr

/-- deploy (lines 83-94): the try body wrapped in the catch that logs the
error and swallows it. -/
def deployRun (a : WeaveGitOpsAddOn) (clusterInfo : ClusterInfo) (env : Env) :
    StepRun :=
  let t := deployTry a clusterInfo env
  { submitted := t.submitted, repoAfter := t.repoAfter,
    log := match t.thrown with | some e => [coreErrMsg e] | none => [],
    raised := none, deferredRaise := t.deferredRaise,
    storeCalls := t.storeCalls }

/-- The request postDeploy submits, built from the repository state after
credential resolution (lines 104-121). -/
def bootstrapChartRequest (nspace : String) (repo : BootstrapRepository)
    (clusterInfo : ClusterInfo) : HelmChartRequest :=
  { id := "weave-gitops-application", chart := "wego-app",
    repository := "https://murillodigital.github.io/wego-helm",
    version := "0.0.1", nspace := nspace,
    values := some { applications := [
      { applicationName := clusterInfo.clusterName,
        gitRepository := repo.URL,
        privateKey := base64EncodeContents (repo.privateKey.getD ""),
        knownHosts := base64EncodeContents (repo.knownHosts.getD ""),
        path := repo.path, branch := repo.branch }] } }

/-- The try block of postDeploy (lines 97-121): resolve credentials when a
secret name is configured, then the validation of line 101 (which throws
when privateKey or knownHosts is truthy), then the addHelmChart call. -/
def postDeployTry (a : WeaveGitOpsAddOn) (clusterInfo : ClusterInfo)
    (env : Env) : StepTry :=
  let repo := a.bootstrapRepository
  let step1 : ResolveRun :=
    if jsTruthy repo.secretName then
      getSshKeyFromSecretRun repo (repo.secretName.getD "") env.storeResponse
    else
      { repoAfter := repo, raised := none, deferredRaise := none,
        storeCalls := [] }
  match step1.raised with
  | some e =>
    { submitted := [], repoAfter := step1.repoAfter,
      deferredRaise := step1.deferredRaise, storeCalls := step1.storeCalls,
      thrown := some e }
  | none =>
    if jsTruthy step1.repoAfter.privateKey || jsTruthy step1.repoAfter.knownHosts then
      { submitted := [], repoAfter := step1.repoAfter,
        deferredRaise := step1.deferredRaise, storeCalls := step1.storeCalls,
        thrown := some missingDetailsMsg }
    else
      { submitted := [bootstrapChartRequest a.nspace step1.repoAfter clusterInfo],
        repoAfter := step1.repoAfter,
        deferredRaise := step1.deferredRaise, storeCalls := step1.storeCalls,
        thrown := env.installError }

/-- postDeploy (lines 96-125): the try body wrapped in the catch that logs
the error and swallows it.  The teams argument is never read. -/
def postDeployRun (a : WeaveGitOpsAddOn) (clusterInfo : ClusterInfo)
    (_teams : List Team) (env : Env) : StepRun :=
  let t := postDeployTry a clusterInfo env
  { submitted := t.submitted, repoAfter := t.repoAfter,
    log := match t.thrown with | some e => [bootErrMsg e] | none => [],
    raised := none, deferredRaise := t.deferredRaise,
    storeCalls := t.storeCalls }

theorem b64Index_b64Char : ∀ n, n < 64 → b64Index (b64Char n) = n := by decide

theorem b64Char_ne_61 : ∀ n, n < 64 → b64Char n ≠ 61 := by decide

theorem b64EncodeBytes_roundtrip :
    ∀ bs : List Nat, (∀ b ∈ bs, b < 256) →
      b64DecodeBytes (b64EncodeBytes bs) = some bs
  | [], _ => rfl
  | [b1], h => by
    have hb1 : b1 < 256 := h b1 (by simp)
    have h1 : b1 / 4 < 64 := by omega
    have h2 : b1 % 4 * 16 < 64 := by omega
    simp [b64EncodeBytes, b64DecodeBytes,
      b64Index_b64Char _ h1, b64Index_b64Char _ h2]
    omega
  | [b1, b2], h => by
    have hb1 : b1 < 256 := h b1 (by simp)
    have hb2 : b2 < 256 := h b2 (by simp)
    have h1 : b1 / 4 < 64 := by omega
    have h2 : b1 % 4 * 16 + b2 / 16 < 64 := by omega
    have h3 : b2 % 16 * 4 < 64 := by omega
    simp [b64EncodeBytes, b64DecodeBytes, b64Char_ne_61 _ h3,
      b64Index_b64Char _ h1, b64Index_b64Char _ h2, b64Index_b64Char _ h3]
    omega
  | b1 :: b2 :: b3 :: rest, h => by
    have hb1 : b1 < 256 := h b1 (by simp)
    have hb2 : b2 < 256 := h b2 (by simp)
    have hb3 : b3 < 256 := h b3 (by simp)
    have h1 : b1 / 4 < 64 := by omega
    have h2 : b1 % 4 * 16 + b2 / 16 < 64 := by omega
    have h3 : b2 % 16 * 4 + b3 / 64 < 64 := by omega
    have h4 : b3 % 64 < 64 := by omega
    have ih := b64EncodeBytes_roundtrip rest
      (fun b hb => h b (by simp [hb]))
    simp [b64EncodeBytes, b64DecodeBytes, b64Char_ne_61 _ h3,
      b64Char_ne_61 _ h4, ih, b64Index_b64Char _ h1, b64Index_b64Char _ h2,
      b64Index_b64Char _ h3, b64Index_b64Char _ h4]
    omega

theorem bufferFromBinary_eq_self (us : List Nat) (h : ∀ u ∈ us, u < 256) :
    bufferFromBinary us = us := by
  induction us with
  | nil => rfl
  | cons a t ih =>
    have ha : a % 256 = a := Nat.mod_eq_of_lt (h a (by simp))
    have ht := ih (fun u hu => h u (by simp [hu]))
    simp only [bufferFromBinary, List.map_cons, ha, List.cons.injEq, true_and]
    simpa only [bufferFromBinary] using ht

/-- Claim C1: the claim states postDeploy submits the bootstrap request iff
both privateKey and knownHosts are non-empty, aborting when either is
missing.  The source's line 101 check is inverted: with secretName unset and
both credentials present, postDeploy throws the missing-details failure and
submits nothing, while with both credentials absent it submits the request;
this theorem evaluates the step at both inputs. -/
theorem postDeploy_rejects_present_credentials :
    (postDeployRun (mkWeaveGitOpsAddOn
        ⟨"git@github.com:acme/fleet.git", "main", "clusters", none,
          some "PRIVATE-KEY", none, some "KNOWN-HOSTS"⟩ none)
      ⟨"prod-cluster"⟩ [] ⟨.failure "unused", none⟩).submitted = [] ∧
    (postDeployRun (mkWeaveGitOpsAddOn
        ⟨"git@github.com:acme/fleet.git", "main", "clusters", none,
          some "PRIVATE-KEY", none, some "KNOWN-HOSTS"⟩ none)
      ⟨"prod-cluster"⟩ [] ⟨.failure "unused", none⟩).log =
      [bootErrMsg missingDetailsMsg] ∧
    (postDeployRun (mkWeaveGitOpsAddOn
        ⟨"git@github.com:acme/fleet.git", "main", "clusters", none,
          none, none, none⟩ none)
      ⟨"prod-cluster"⟩ [] ⟨.failure "unused", none⟩).submitted ≠ [] := by
  decide

/-- Claim C2: the claim states the fetched payload is parsed and copied only
after the store fetch completes, setting the three fields from the payload.
In the source the JSON.parse runs synchronously right after the asynchronous
getSecretValue call is issued, so it parses the still-empty local and
throws: with the store answering the documented payload, the repository is
left untouched, the parse failure is what gets logged, and nothing is
submitted - although the payload itself parses fine, as the last conjunct
shows. -/
theorem getSshKeyFromSecret_parses_before_fetch_completes :
    (postDeployRun (mkWeaveGitOpsAddOn
        ⟨"git@github.com:acme/fleet.git", "main", "clusters", some "wego-ssh",
          none, none, none⟩ none) ⟨"demo-cluster"⟩ []
        ⟨.stringPayload (some "\x7b\"private_key\":\"A\",\"public_key\":\"B\",\"known_hosts\":\"C\"\x7d"),
          none⟩).repoAfter =
      ⟨"git@github.com:acme/fleet.git", "main", "clusters", some "wego-ssh",
        none, none, none⟩ ∧
    (postDeployRun (mkWeaveGitOpsAddOn
        ⟨"git@github.com:acme/fleet.git", "main", "clusters", some "wego-ssh",
          none, none, none⟩ none) ⟨"demo-cluster"⟩ []
        ⟨.stringPayload (some "\x7b\"private_key\":\"A\",\"public_key\":\"B\",\"known_hosts\":\"C\"\x7d"),
          none⟩).log = [bootErrMsg jsonSyntaxErrorMsg] ∧
    (postDeployRun (mkWeaveGitOpsAddOn
        ⟨"git@github.com:acme/fleet.git", "main", "clusters", some "wego-ssh",
          none, none, none⟩ none) ⟨"demo-cluster"⟩ []
        ⟨.stringPayload (some "\x7b\"private_key\":\"A\",\"public_key\":\"B\",\"known_hosts\":\"C\"\x7d"),
          none⟩).submitted = [] ∧
    (applySecretText
        ⟨"git@github.com:acme/fleet.git", "main", "clusters", some "wego-ssh",
          none, none, none⟩
        "\x7b\"private_key\":\"A\",\"public_key\":\"B\",\"known_hosts\":\"C\"\x7d").1.privateKey =
      some "A" := by
  decide

/-- Claim C3: the claim states a store error aborts the resolution and
propagates to postDeploy's catch.  In the source the store error is thrown
inside the deferred getSecretValue callback, on an event-loop turn after
postDeploy has already returned: it surfaces as an uncaught asynchronous
exception (deferredRaise), while the error the catch boundary actually sees
and logs is the unrelated JSON parse failure. -/
theorem store_error_never_reaches_catch_boundary :
    (postDeployRun (mkWeaveGitOpsAddOn
        ⟨"git@github.com:acme/fleet.git", "main", "clusters", some "wego-ssh",
          none, none, none⟩ none) ⟨"demo-cluster"⟩ []
        ⟨.failure "DecryptionFailureException", none⟩).deferredRaise =
      some "DecryptionFailureException" ∧
    (postDeployRun (mkWeaveGitOpsAddOn
        ⟨"git@github.com:acme/fleet.git", "main", "clusters", some "wego-ssh",
          none, none, none⟩ none) ⟨"demo-cluster"⟩ []
        ⟨.failure "DecryptionFailureException", none⟩).log =
      [bootErrMsg jsonSyntaxErrorMsg] ∧
    (postDeployRun (mkWeaveGitOpsAddOn
        ⟨"git@github.com:acme/fleet.git", "main", "clusters", some "wego-ssh",
          none, none, none⟩ none) ⟨"demo-cluster"⟩ []
        ⟨.failure "DecryptionFailureException", none⟩).raised = none := by
  decide

/-- Claim C4: every error reaching the try/catch boundary of deploy or
postDeploy is caught there and logged with the step's message, and both
methods always return normally - no exception of their synchronous execution
propagates to the caller, for every repository, cluster, team list and
collaborator behaviour. -/
theorem deploy_postDeploy_never_propagate (a : WeaveGitOpsAddOn)
    (clusterInfo : ClusterInfo) (teams : List Team) (env : Env) :
    (deployRun a clusterInfo env).raised = none ∧
    (postDeployRun a clusterInfo teams env).raised = none ∧
    (∀ e, (deployTry a clusterInfo env).thrown = some e →
      (deployRun a clusterInfo env).log = [coreErrMsg e]) ∧
    (∀ e, (postDeployTry a clusterInfo env).thrown = some e →
      (postDeployRun a clusterInfo teams env).log = [bootErrMsg e]) := by
  refine ⟨rfl, rfl, ?_, ?_⟩ <;> intro e he <;>
    simp [deployRun, postDeployRun, he]

/-- Witness for C4 at a concrete add-on whose install call throws. -/
theorem deploy_postDeploy_never_propagate_witness :
    (deployRun (mkWeaveGitOpsAddOn ⟨"u", "b", "p", none, none, none, none⟩
        none) ⟨"c"⟩ ⟨.failure "s", some "boom"⟩).raised = none ∧
    (deployRun (mkWeaveGitOpsAddOn ⟨"u", "b", "p", none, none, none, none⟩
        none) ⟨"c"⟩ ⟨.failure "s", some "boom"⟩).log = [coreErrMsg "boom"] :=
  ⟨(deploy_postDeploy_never_propagate
      (mkWeaveGitOpsAddOn ⟨"u", "b", "p", none, none, none, none⟩ none)
      ⟨"c"⟩ [] ⟨.failure "s", some "boom"⟩).1,
   (deploy_postDeploy_never_propagate
      (mkWeaveGitOpsAddOn ⟨"u", "b", "p", none, none, none, none⟩ none)
      ⟨"c"⟩ [] ⟨.failure "s", some "boom"⟩).2.2.1 "boom" rfl⟩

/-- Claim C5: the claim states that with secretName unset and both
credentials pre-populated, postDeploy submits the bootstrap request without
calling the secret store.  The source indeed never contacts the store
(storeCalls is empty), but because of the inverted line 101 check it aborts
with the missing-details failure instead of submitting. -/
theorem postDeploy_aborts_despite_prepopulated_credentials :
    (postDeployRun (mkWeaveGitOpsAddOn
        ⟨"git@github.com:acme/apps.git", "develop", "teams", none,
          some "KEYDATA", none, some "HOSTDATA"⟩ (some "flux-system"))
      ⟨"staging"⟩ [] ⟨.failure "unused", none⟩).storeCalls = [] ∧
    (postDeployRun (mkWeaveGitOpsAddOn
        ⟨"git@github.com:acme/apps.git", "develop", "teams", none,
          some "KEYDATA", none, some "HOSTDATA"⟩ (some "flux-system"))
      ⟨"staging"⟩ [] ⟨.failure "unused", none⟩).submitted = [] ∧
    (postDeployRun (mkWeaveGitOpsAddOn
        ⟨"git@github.com:acme/apps.git", "develop", "teams", none,
          some "KEYDATA", none, some "HOSTDATA"⟩ (some "flux-system"))
      ⟨"staging"⟩ [] ⟨.failure "unused", none⟩).log =
      [bootErrMsg missingDetailsMsg] := by
  decide

/-- Claim C6 counterexample: the claim states the encoding round-trips for
every input string.  base64EncodeContents feeds the string through the
latin1 (binary) Buffer decoder, which keeps only the low eight bits of each
UTF-16 code unit: for the one-character string with code unit 256 the
decoded bytes are [0], not the original unit, so decoding does not recover
the pre-encoding contents. -/
theorem base64EncodeContents_truncates_wide_units :
    ¬ b64DecodeBytes (base64EncodeUnits (jsCodeUnits "Ā")) =
      some (jsCodeUnits "Ā") := by
  decide

/-- Claim C6 (amended): for every input string all of whose UTF-16 code units
are below 256 - that is, genuinely byte-valued input, which is how the spec
says the contents are to be treated - base64-decoding the output of
base64EncodeContents yields exactly the original code units. -/
theorem base64EncodeContents_roundtrip_bytes (s : String)
    (h : ∀ u ∈ jsCodeUnits s, u < 256) :
    b64DecodeBytes (base64EncodeUnits (jsCodeUnits s)) =
      some (jsCodeUnits s) := by
  unfold base64EncodeUnits
  rw [bufferFromBinary_eq_self _ h]
  exact b64EncodeBytes_roundtrip _ h

/-- Witness for the amended C6 on a concrete ASCII key. -/
theorem base64EncodeContents_roundtrip_bytes_witness :
    (∀ u ∈ jsCodeUnits "ssh-rsa KEYDATA", u < 256) ∧
    b64DecodeBytes (base64EncodeUnits (jsCodeUnits "ssh-rsa KEYDATA")) =
      some (jsCodeUnits "ssh-rsa KEYDATA") :=
  ⟨by decide, base64EncodeContents_roundtrip_bytes "ssh-rsa KEYDATA"
    (by decide)⟩

/-- Claim C7: deploy submits exactly one install request - named
weave-gitops-core, chart wego-core, the fixed source repository URL, version
0.0.5, the configured namespace, and no values - for every bootstrap
repository, namespace choice, cluster and collaborator behaviour; the
quantified repository does not occur in the right-hand side, so the step
does not depend on it. -/
theorem deploy_submits_single_core_request (repo : BootstrapRepository)
    (nspace : Option String) (clusterInfo : ClusterInfo) (env : Env) :
    (deployRun (mkWeaveGitOpsAddOn repo nspace) clusterInfo env).submitted =
      [{ id := "weave-gitops-core", chart := "wego-core",
         repository := "https://murillodigital.github.io/wego-helm",
         version := "0.0.5", nspace := nspace.getD "wego-system",
         values := none }] :=
  rfl

/-- Claim C8: whenever postDeploy submits a request, its values hold a
single-element applications list whose applicationName is the cluster's name
and whose gitRepository is the bootstrap repository URL unmodified (together
with the encoded credentials, path and branch of the repository). -/
theorem postDeploy_request_application_fields (a : WeaveGitOpsAddOn)
    (clusterInfo : ClusterInfo) (teams : List Team) (env : Env)
    (req : HelmChartRequest)
    (hreq : req ∈ (postDeployRun a clusterInfo teams env).submitted) :
    req.values = some { applications := [
      { applicationName := clusterInfo.clusterName,
        gitRepository := a.bootstrapRepository.URL,
        privateKey :=
          base64EncodeContents (a.bootstrapRepository.privateKey.getD ""),
        knownHosts :=
          base64EncodeContents (a.bootstrapRepository.knownHosts.getD ""),
        path := a.bootstrapRepository.path,
        branch := a.bootstrapRepository.branch }] } := by
  have hparse : applySecretText a.bootstrapRepository "" =
      (a.bootstrapRepository, some jsonSyntaxErrorMsg) := rfl
  by_cases h : jsTruthy a.bootstrapRepository.secretName
  · simp [postDeployRun, postDeployTry, h, getSshKeyFromSecretRun,
      hparse] at hreq
  · by_cases h2 : (jsTruthy a.bootstrapRepository.privateKey ||
        jsTruthy a.bootstrapRepository.knownHosts) = true
    · simp [postDeployRun, postDeployTry, h, h2] at hreq
    · simp [postDeployRun, postDeployTry, h, h2] at hreq
      subst hreq
      rfl

/-- Witness for C8: a concrete run in which the request is submitted. -/
theorem postDeploy_request_application_fields_witness :
    (bootstrapChartRequest "flux-system"
        ⟨"git@github.com:acme/fleet.git", "main", "clusters", none, none,
          none, none⟩ ⟨"demo-cluster"⟩).values = some { applications := [
      { applicationName := "demo-cluster",
        gitRepository := "git@github.com:acme/fleet.git",
        privateKey := base64EncodeContents "",
        knownHosts := base64EncodeContents "",
        path := "clusters", branch := "main" }] } :=
  postDeploy_request_application_fields
    (mkWeaveGitOpsAddOn ⟨"git@github.com:acme/fleet.git", "main", "clusters",
      none, none, none, none⟩ (some "flux-system"))
    ⟨"demo-cluster"⟩ [] ⟨.failure "unused", none⟩
    (bootstrapChartRequest "flux-system"
      ⟨"git@github.com:acme/fleet.git", "main", "clusters", none, none,
        none, none⟩ ⟨"demo-cluster"⟩)
    (List.Mem.head _)

/-- Claim C9: when the fetched text parses, the field-population statements
of getSshKeyFromSecret set exactly the three credential fields of the
passed-in repository from the parsed object - URL, branch, path and
secretName are untouched, as the record update shows - and raise nothing
(the method returns void, so the exception slot none is its only outcome). -/
theorem applySecretText_frame (repo : BootstrapRepository) (secret : String)
    (secretObject : List (String × String))
    (hparse : parseFlatJson secret = some secretObject) :
    applySecretText repo secret =
      ({ repo with
          privateKey := jsLookup secretObject "private_key",
          publicKey := jsLookup secretObject "public_key",
          knownHosts := jsLookup secretObject "known_hosts" }, none) := by
  simp [applySecretText, hparse]

/-- Witness for C9 at the documented secret payload. -/
theorem applySecretText_frame_witness :
    parseFlatJson
      "\x7b\"private_key\":\"A\",\"public_key\":\"B\",\"known_hosts\":\"C\"\x7d" =
      some [("private_key", "A"), ("public_key", "B"), ("known_hosts", "C")] ∧
    applySecretText
      ⟨"git@github.com:acme/fleet.git", "main", "clusters", some "wego-ssh",
        none, none, none⟩
      "\x7b\"private_key\":\"A\",\"public_key\":\"B\",\"known_hosts\":\"C\"\x7d" =
      (⟨"git@github.com:acme/fleet.git", "main", "clusters", some "wego-ssh",
        some "A", some "B", some "C"⟩, none) :=
  ⟨rfl, applySecretText_frame
    ⟨"git@github.com:acme/fleet.git", "main", "clusters", some "wego-ssh",
      none, none, none⟩
    "\x7b\"private_key\":\"A\",\"public_key\":\"B\",\"known_hosts\":\"C\"\x7d"
    [("private_key", "A"), ("public_key", "B"), ("known_hosts", "C")] rfl⟩

/-- Claim C10: when the fetched text does not parse, the field-population
statements of getSshKeyFromSecret raise the parse failure before any
assignment runs, so the repository is returned exactly as it was. -/
theorem applySecretText_no_mutation_on_parse_failure
    (repo : BootstrapRepository) (secret : String)
    (hparse : parseFlatJson secret = none) :
    applySecretText repo secret = (repo, some jsonSyntaxErrorMsg) := by
  simp [applySecretText, hparse]

/-- Witness for C10 on the empty fetched text, with credentials already
present beforehand. -/
theorem applySecretText_no_mutation_on_parse_failure_witness :
    parseFlatJson "" = none ∧
    applySecretText
      ⟨"u", "b", "p", some "wego-ssh", some "OLDPK", some "OLDPUB",
        some "OLDHOSTS"⟩ "" =
      (⟨"u", "b", "p", some "wego-ssh", some "OLDPK", some "OLDPUB",
        some "OLDHOSTS"⟩, some jsonSyntaxErrorMsg) :=
  ⟨rfl, applySecretText_no_mutation_on_parse_failure
    ⟨"u", "b", "p", some "wego-ssh", some "OLDPK", some "OLDPUB",
      some "OLDHOSTS"⟩ "" rfl⟩
